import Mathlib

/-! Verification of `notify`, a bridge from consul health checks to pagerduty.

Shallow embedding of `main.go`.

* Go's `time.Time` is an instant on one time line, counted in nanoseconds; `time.Duration` is a
  signed 64 bit count of nanoseconds, and `Time.Sub` saturates at its two ends.
* `Duration.Seconds` is `float64(sec) + float64(nsec)/1e9`; it is embedded over the rationals.
  The two thresholds the program compares it with (30 and 3600) are whole numbers of seconds, the
  fraction `nsec/1e9` is a multiple of `1e-9` below 1 and a double near 3600 resolves `5e-13`, so
  rounding to a double changes neither comparison.
* `*consulapi.HealthCheck` is an address together with the value it points to; the map
  `notified` is keyed by the address.
* `time.Now()`, the consul client and the pager are the environment: their answers are arguments.
* `log.Print` / `log.Println` append a line to a log.
-/

namespace Notify

/-! ## Time -/

/-- Go `time.Time`: nanoseconds elapsed since the zero `Time`. -/
structure Time where
  ns : Int
deriving DecidableEq, Repr

/-- Go `time.Duration`: an `int64` count of nanoseconds. -/
structure Duration where
  ns : Int
deriving DecidableEq, Repr

/-- Go `minDuration`, `-1 << 63`. -/
def minDuration : Int := -9223372036854775808

/-- Go `maxDuration`, `1<<63 - 1`. -/
def maxDuration : Int := 9223372036854775807

/-- Go `time.Second` in nanoseconds. -/
def Second : Int := 1000000000

/-- Go `func (t Time) Sub(u Time) Duration`: the difference `t-u`, saturated to the range of
`Duration`. -/
def Time.Sub (t u : Time) : Duration :=
  let d := t.ns - u.ns
  if d < minDuration then ⟨minDuration⟩
  else if maxDuration < d then ⟨maxDuration⟩
  else ⟨d⟩

/-- Go `func (d Duration) Seconds() float64`:
`sec := d / Second; nsec := d % Second; return float64(sec) + float64(nsec)/1e9`
(Go's `/` and `%` on integers truncate toward zero). -/
def Duration.Seconds (d : Duration) : ℚ :=
  let sec := d.ns.tdiv Second
  let nsec := d.ns.tmod Second
  (sec : ℚ) + (nsec : ℚ) / 1000000000

/-- Go `int` arithmetic on a 64 bit platform: wrap into `[-2^63, 2^63)`. -/
def wrapInt64 (x : Int) : Int :=
  (x + 9223372036854775808) % 18446744073709551616 - 9223372036854775808

/-! ## Data model -/

/-- The fields of `consulapi.HealthCheck`. -/
structure HealthCheck where
  Node : String
  CheckID : String
  Name : String
  Status : String
  Notes : String
  Output : String
  ServiceID : String
  ServiceName : String
deriving DecidableEq, Repr

/-- A value of type `*consulapi.HealthCheck`: the address and the check stored there. -/
structure HealthCheckPtr where
  addr : Nat
  val : HealthCheck
deriving DecidableEq, Repr

/-- Go `type serviceChecks []*consulapi.HealthCheck`. -/
abbrev serviceChecks := List HealthCheckPtr

/-- Go `type record struct { timestamp time.Time; count int }`. -/
structure record where
  timestamp : Time
  count : Int
deriving DecidableEq, Repr

/-- The zero value of `record`, which a map lookup yields when the key is absent. -/
def record.zero : record := ⟨⟨0⟩, 0⟩

/-- Go `type notified map[*consulapi.HealthCheck]record`, keyed by the pointer's address. -/
abbrev notified := List (Nat × record)

/-- Go `var notifiedChecks = make(notified)`: the store at process start. -/
def notifiedChecks₀ : notified := []

/-- The `record, ok := notifiedChecks[check]` lookup. -/
def notified.get (m : notified) (check : HealthCheckPtr) : Option record :=
  m.lookup check.addr

/-! ## The debounce engine -/

/-- What one run of `isNotified` leaves behind: the returned boolean, the final value of its
local variable `record`, and the global map `notifiedChecks`. -/
structure Frame where
  ret : Bool
  recordVar : record
  store : notified
deriving DecidableEq, Repr

/-- Go `func isNotified(check *consulapi.HealthCheck) bool`, statement by statement; `now` is the
answer of `time.Now()`. The assignments go to the local `record`; the function has no statement
that assigns into `notifiedChecks`. -/
def isNotifiedRun (notifiedChecks : notified) (check : HealthCheckPtr) (now : Time) : Frame :=
  match notifiedChecks.get check with
  | none =>
    let r := record.zero
    let r := { r with timestamp := now }
    let r := { r with count := 0 }
    ⟨true, r, notifiedChecks⟩
  | some r =>
    let timediff := (now.Sub r.timestamp).Seconds
    if 30 ≤ timediff ∧ r.count = 0 then
      ⟨false, r, notifiedChecks⟩
    else if 3600 < timediff then
      let r := { r with timestamp := now }
      let r := { r with count := wrapInt64 (r.count + 1) }
      ⟨false, r, notifiedChecks⟩
    else
      ⟨true, r, notifiedChecks⟩

/-- The observable effect of `isNotified`: the returned boolean and the store afterwards. -/
def isNotified (notifiedChecks : notified) (check : HealthCheckPtr) (now : Time) :
    Bool × notified :=
  let f := isNotifiedRun notifiedChecks check now
  (f.ret, f.store)

/-! ## The aggregator -/

/-- Go `type Services map[string][]string`, as the list of its entries in the order in which a
`range` over the map visits them (each key once; a nil map is the empty list). -/
abbrev Services := List (String × List String)

/-- The consul client `c` as seen during one tick: what `c.catalog.Services(nil)` answers (value
and `err`) and what `c.health.Checks(id, ...)` answers for each service id (value and `err`). -/
structure Consul where
  catalogServices : Services × Option String
  healthChecks : String → serviceChecks × Option String

/-- Go `func (c *Consul) services() Services`: the value the catalog call returned, whatever
`err` is; the second component is what `log.Print(err)` wrote. -/
def Consul.services (c : Consul) : Services × List String :=
  let services := c.catalogServices.1
  let err := c.catalogServices.2
  match err with
  | some e => (services, [e])
  | none => (services, [])

/-- One iteration of the loop of `servicesChecks`. -/
def Consul.servicesChecksStep (c : Consul) (acc : List serviceChecks × List String)
    (entry : String × List String) : List serviceChecks × List String :=
  let id := entry.1
  let checks := (c.healthChecks id).1
  let err := (c.healthChecks id).2
  match err with
  | some e => (acc.1 ++ [checks], acc.2 ++ [e])
  | none => (acc.1 ++ [checks], acc.2)

/-- Go `func (c *Consul) servicesChecks(services Services) (servicesChecks []serviceChecks)`.
The parameter is not read: the loop ranges over a fresh `c.services()`. The second component is
what was logged. -/
def Consul.servicesChecks (c : Consul) (_services : Services) :
    List serviceChecks × List String :=
  (c.services.1).foldl c.servicesChecksStep ([], c.services.2)

/-- Go `func failingChecks(servicesChecks []serviceChecks) (failingChecks serviceChecks)`:
the two nested loops, appending to the result. -/
def failingChecks (servicesChecks : List serviceChecks) : serviceChecks :=
  servicesChecks.foldl
    (fun failing sc =>
      sc.foldl
        (fun failing check =>
          if check.val.Status ≠ "passing" then failing ++ [check] else failing)
        failing)
    []

/-- Follows the spec's words: the concatenation of the per-service lists, filtered to the checks
whose status is not exactly "passing". -/
def collectFailingSpec (servicesChecks : List serviceChecks) : serviceChecks :=
  servicesChecks.flatten.filter (fun check => decide (check.val.Status ≠ "passing"))

/-! ## The notifier and the scheduler -/

/-- What the process does to the outside. -/
inductive Event where
  /-- A call `pager.Trigger(description)`. -/
  | trigger (description : String)
  /-- A line written by `log.Print(err)`. -/
  | logPrint (line : String)
  /-- A line written by `log.Println(...)`. -/
  | logPrintln (line : String)
deriving DecidableEq, Repr

/-- The environment of the notifier: the answer of the k-th call of `time.Now()` and the answer
(incident key and `err`) of the k-th call of `pager.Trigger`. -/
structure Env where
  now : Nat → Time
  trigger : Nat → String → String × Option String

/-- The process state: the global map, how many times the clock and the pager have been called,
and everything done to the outside so far. -/
structure World where
  notifiedChecks : notified
  nowCalls : Nat
  triggerCalls : Nat
  trace : List Event
deriving DecidableEq, Repr

/-- The state at process start. -/
def World.init : World := ⟨notifiedChecks₀, 0, 0, []⟩

/-- Go `fmt.Sprintf("%s => %s", check.ServiceName, check.Output)`. -/
def description (check : HealthCheckPtr) : String :=
  check.val.ServiceName ++ " => " ++ check.val.Output

/-- The body of the loop of `notify` for one check. -/
def notifyStep (env : Env) (w : World) (check : HealthCheckPtr) : World :=
  let r := isNotified w.notifiedChecks check (env.now w.nowCalls)
  let w := { w with notifiedChecks := r.2, nowCalls := w.nowCalls + 1 }
  if r.1 = false then
    let answer := env.trigger w.triggerCalls (description check)
    let incidentKey := answer.1
    let err := answer.2
    let w := { w with triggerCalls := w.triggerCalls + 1,
                      trace := w.trace ++ [Event.trigger (description check)] }
    let w := match err with
      | some e => { w with trace := w.trace ++ [Event.logPrint e] }
      | none => w
    { w with trace := w.trace ++
        [Event.logPrintln ("New incident has been submitted to pagerduty " ++ incidentKey)] }
  else
    w

/-- Go `func notify(failingChecks serviceChecks)`. -/
def notify (env : Env) (w : World) (failingChecks : serviceChecks) : World :=
  failingChecks.foldl (notifyStep env) w

/-- The descriptions `pager.Trigger` was called with, in order. -/
def triggersOf : List Event → List String
  | [] => []
  | Event.trigger d :: rest => d :: triggersOf rest
  | _ :: rest => triggersOf rest

/-- Follows the spec's words: call `isNotified` once per check, in list order (the k-th call
reads the k-th clock answer and sees the store the previous call left); page exactly the checks
for which it returned `false`, with the formatted description. -/
def notifySpec (now : Nat → Time) : notified → Nat → serviceChecks → List String
  | _, _, [] => []
  | store, k, check :: rest =>
    let r := isNotified store check (now k)
    (if r.1 = false then [description check] else []) ++ notifySpec now r.2 (k + 1) rest

/-- One tick of the loop of `main`:
`notify(failingChecks(c.servicesChecks(c.services())))`. The argument `c.services()` is evaluated
first, then `servicesChecks`; both log their errors. -/
def mainTick (env : Env) (w : World) (c : Consul) : World :=
  let arg := c.services
  let w := { w with trace := w.trace ++ arg.2.map Event.logPrint }
  let sc := c.servicesChecks arg.1
  let w := { w with trace := w.trace ++ sc.2.map Event.logPrint }
  notify env w (failingChecks sc.1)

/-- The loop of `main` run for as many ticks as the list is long, the client answering the
ticks from the given list. -/
def mainLoop (env : Env) (ticks : List Consul) : World :=
  ticks.foldl (mainTick env) World.init

/-- Replay the same check at the given clock answers, threading the store: the list of returned
booleans and the final store. -/
def replay (check : HealthCheckPtr) : notified → List Time → List Bool × notified
  | store, [] => ([], store)
  | store, now :: rest =>
    let r := isNotified store check now
    let tail := replay check r.2 rest
    (r.1 :: tail.1, tail.2)

/-! ## Concrete data used in the examples -/

/-- A check of service `svc` with the given status and output, stored at address `addr`. -/
def mkCheck (addr : Nat) (svc status output : String) : HealthCheckPtr :=
  ⟨addr, ⟨"node1", "chk", "check", status, "", output, svc, svc⟩⟩

/-- Whole seconds as a `Time`. -/
def atSecond (s : Int) : Time := ⟨s * Second⟩

/-- A registry in which the catalog lists `api` and `db`, the checks of `db` cannot be fetched
and `api` has one critical check. -/
def registryDbDown : Consul where
  catalogServices := ([("db", []), ("api", [])], none)
  healthChecks := fun id =>
    if id = "api" then ([mkCheck 2 "api" "critical" "timeout"], none)
    else ([], some "connection refused")

/-! ## Arithmetic of the two thresholds -/

theorem seconds_eq (d : Duration) : d.Seconds = (d.ns : ℚ) / 1000000000 := by
  have h := Int.tdiv_add_tmod d.ns Second
  have hq : ((Second * d.ns.tdiv Second + d.ns.tmod Second : Int) : ℚ) = (d.ns : ℚ) := by
    rw [h]
  simp only [Second] at hq
  push_cast at hq
  simp only [Duration.Seconds, Second]
  rw [← hq]
  ring

theorem seconds_ge_thirty (d : Duration) : 30 ≤ d.Seconds ↔ 30000000000 ≤ d.ns := by
  rw [seconds_eq, le_div_iff₀ (by norm_num)]
  constructor
  · intro h
    have : ((30000000000 : Int) : ℚ) ≤ (d.ns : ℚ) := by push_cast; linarith
    exact_mod_cast this
  · intro h
    have : ((30000000000 : Int) : ℚ) ≤ (d.ns : ℚ) := by exact_mod_cast h
    push_cast at this; linarith

theorem seconds_gt_hour (d : Duration) : 3600 < d.Seconds ↔ 3600000000000 < d.ns := by
  rw [seconds_eq, lt_div_iff₀ (by norm_num)]
  constructor
  · intro h
    have : ((3600000000000 : Int) : ℚ) < (d.ns : ℚ) := by push_cast; linarith
    exact_mod_cast this
  · intro h
    have : ((3600000000000 : Int) : ℚ) < (d.ns : ℚ) := by exact_mod_cast h
    push_cast at this; linarith

theorem sub_ge_thirty (t u : Time) :
    30000000000 ≤ (t.Sub u).ns ↔ 30000000000 ≤ t.ns - u.ns := by
  unfold Time.Sub
  simp only [minDuration, maxDuration]
  split_ifs <;> simp only <;> omega

theorem sub_gt_hour (t u : Time) :
    3600000000000 < (t.Sub u).ns ↔ 3600000000000 < t.ns - u.ns := by
  unfold Time.Sub
  simp only [minDuration, maxDuration]
  split_ifs <;> simp only <;> omega

/-- The first `case` of the `switch`, in nanoseconds of true elapsed time. -/
theorem timediff_ge_thirty (now ts : Time) :
    30 ≤ (now.Sub ts).Seconds ↔ 30000000000 ≤ now.ns - ts.ns := by
  rw [seconds_ge_thirty, sub_ge_thirty]

/-- The second `case` of the `switch`, in nanoseconds of true elapsed time. -/
theorem timediff_gt_hour (now ts : Time) :
    3600 < (now.Sub ts).Seconds ↔ 3600000000000 < now.ns - ts.ns := by
  rw [seconds_gt_hour, sub_gt_hour]

/-! ## Run of `isNotified`, case by case -/

theorem isNotifiedRun_store (st : notified) (check : HealthCheckPtr) (now : Time) :
    (isNotifiedRun st check now).store = st := by
  unfold isNotifiedRun
  split
  · rfl
  · dsimp only
    split_ifs <;> rfl

theorem isNotified_snd (st : notified) (check : HealthCheckPtr) (now : Time) :
    (isNotified st check now).2 = st := by
  simp [isNotified, isNotifiedRun_store]

theorem isNotifiedRun_unseen (st : notified) (check : HealthCheckPtr) (now : Time)
    (h : st.get check = none) :
    isNotifiedRun st check now = ⟨true, ⟨now, 0⟩, st⟩ := by
  unfold isNotifiedRun
  rw [h]

theorem isNotifiedRun_first (st : notified) (check : HealthCheckPtr) (now : Time) (r : record)
    (h : st.get check = some r) (h0 : r.count = 0)
    (he : 30000000000 ≤ now.ns - r.timestamp.ns) :
    isNotifiedRun st check now = ⟨false, r, st⟩ := by
  unfold isNotifiedRun
  rw [h]
  simp only
  rw [if_pos ⟨(timediff_ge_thirty now r.timestamp).2 he, h0⟩]

theorem isNotifiedRun_quiet (st : notified) (check : HealthCheckPtr) (now : Time) (r : record)
    (h : st.get check = some r)
    (h1 : ¬ (r.count = 0 ∧ 30000000000 ≤ now.ns - r.timestamp.ns))
    (h2 : ¬ (3600000000000 < now.ns - r.timestamp.ns)) :
    isNotifiedRun st check now = ⟨true, r, st⟩ := by
  unfold isNotifiedRun
  rw [h]
  simp only
  rw [if_neg (fun hc => h1 ⟨hc.2, (timediff_ge_thirty now r.timestamp).1 hc.1⟩),
    if_neg (fun hc => h2 ((timediff_gt_hour now r.timestamp).1 hc))]

/-! ## Claims about the debounce engine -/

/-- C1: for every store, every check without a record in it and every current time,
`isNotified` returns `true`: the notification is suppressed on first sight. -/
theorem C1_unseen_suppressed (st : notified) (check : HealthCheckPtr) (now : Time)
    (h : st.get check = none) :
    (isNotified st check now).1 = true := by
  simp [isNotified, isNotifiedRun_unseen st check now h]

/-- Witness of C1: a store holding a record of another check only. -/
theorem C1_unseen_suppressed_witness :
    notified.get [(7, ⟨atSecond 5, 0⟩)] (mkCheck 1 "api" "critical" "down") = none ∧
    (isNotified [(7, ⟨atSecond 5, 0⟩)] (mkCheck 1 "api" "critical" "down") (atSecond 9)).1
      = true :=
  ⟨by decide, C1_unseen_suppressed _ _ _ (by decide)⟩

/-- C2 at the empty store and time 0: the check has no record before the call, the local
variable of `isNotified` ends as the record `(now, 0)`, and the store still has no record for the
check afterwards. -/
theorem C2_record_not_created :
    notified.get notifiedChecks₀ (mkCheck 1 "api" "critical" "down") = none ∧
    (isNotifiedRun notifiedChecks₀ (mkCheck 1 "api" "critical" "down") (atSecond 0)).recordVar
      = ⟨atSecond 0, 0⟩ ∧
    notified.get
      (isNotified notifiedChecks₀ (mkCheck 1 "api" "critical" "down") (atSecond 0)).2
      (mkCheck 1 "api" "critical" "down") = none := by
  refine ⟨by decide, ?_, ?_⟩
  · rw [isNotifiedRun_unseen _ _ _ (by decide)]
  · rw [isNotified_snd]
    decide

/-- C3: for every store in which the check has a record with `count == 0`, and every current
time at least 30 seconds after the record's timestamp (exactly 30 seconds and more than 3600
seconds included), `isNotified` returns `false` and leaves the store as it was. -/
theorem C3_first_notification (st : notified) (check : HealthCheckPtr) (now : Time) (r : record)
    (h : st.get check = some r) (h0 : r.count = 0)
    (he : 30 * Second ≤ now.ns - r.timestamp.ns) :
    isNotified st check now = (false, st) ∧
    (isNotified st check now).2.get check = some r := by
  have he2 : 30000000000 ≤ now.ns - r.timestamp.ns := by
    simp only [Second] at he
    omega
  simp [isNotified, isNotifiedRun_first st check now r h h0 he2, h]

/-- Witness of C3: exactly 30 seconds after the record's timestamp. -/
theorem C3_first_notification_witness :
    isNotified [(1, ⟨atSecond 0, 0⟩)] (mkCheck 1 "api" "critical" "down") (atSecond 30)
      = (false, [(1, ⟨atSecond 0, 0⟩)]) ∧
    (isNotified [(1, ⟨atSecond 0, 0⟩)] (mkCheck 1 "api" "critical" "down") (atSecond 30)).2.get
      (mkCheck 1 "api" "critical" "down") = some ⟨atSecond 0, 0⟩ :=
  C3_first_notification [(1, ⟨atSecond 0, 0⟩)] (mkCheck 1 "api" "critical" "down")
    (atSecond 30) ⟨atSecond 0, 0⟩ (by decide) (by decide) (by decide)

/-- C5: for every store in which the check has a record, and every current time: if neither
(`count == 0` and elapsed at least 30 s) nor (elapsed above 3600 s) holds, which covers
`count == 0` with elapsed below 30 s and `count >= 1` with elapsed at most 3600 s (exactly 3600 s
included), then `isNotified` returns `true` and the store is unchanged. -/
theorem C5_suppressed_otherwise (st : notified) (check : HealthCheckPtr) (now : Time)
    (r : record) (h : st.get check = some r)
    (hc : (¬ (r.count = 0 ∧ 30 * Second ≤ now.ns - r.timestamp.ns) ∧
            ¬ (3600 * Second < now.ns - r.timestamp.ns)) ∨
          (r.count = 0 ∧ now.ns - r.timestamp.ns < 30 * Second) ∨
          (1 ≤ r.count ∧ now.ns - r.timestamp.ns ≤ 3600 * Second)) :
    isNotified st check now = (true, st) ∧
    (isNotified st check now).2.get check = some r := by
  simp only [Second] at hc
  have h1 : ¬ (r.count = 0 ∧ 30000000000 ≤ now.ns - r.timestamp.ns) := by
    rintro ⟨hz, hge⟩
    rcases hc with ⟨ha, _⟩ | ⟨_, hb⟩ | ⟨hb, _⟩
    · exact ha ⟨hz, by omega⟩
    · omega
    · omega
  have h2 : ¬ (3600000000000 < now.ns - r.timestamp.ns) := by
    intro hgt
    rcases hc with ⟨_, ha⟩ | ⟨_, hb⟩ | ⟨_, hb⟩
    · exact ha (by omega)
    · omega
    · omega
  simp [isNotified, isNotifiedRun_quiet st check now r h h1 h2, h]

/-- Witness of C5: an escalated record (`count = 1`) exactly 3600 seconds old. -/
theorem C5_suppressed_otherwise_witness :
    isNotified [(1, ⟨atSecond 0, 1⟩)] (mkCheck 1 "api" "critical" "down") (atSecond 3600)
      = (true, [(1, ⟨atSecond 0, 1⟩)]) ∧
    (isNotified [(1, ⟨atSecond 0, 1⟩)] (mkCheck 1 "api" "critical" "down")
      (atSecond 3600)).2.get (mkCheck 1 "api" "critical" "down") = some ⟨atSecond 0, 1⟩ :=
  C5_suppressed_otherwise [(1, ⟨atSecond 0, 1⟩)] (mkCheck 1 "api" "critical" "down")
    (atSecond 3600) ⟨atSecond 0, 1⟩ (by decide) (Or.inr (Or.inr (by decide)))

/-- C6 on the code: starting from the empty store, the four calls for the same check at
0 s, 31 s, 100 s and 3632 s return `true`, `true`, `true`, `true`, and the store is empty
afterwards, so no record with `escalationCount` 2 exists. -/
theorem C6_scenario_all_suppressed :
    replay (mkCheck 1 "x" "critical" "down") notifiedChecks₀
      [atSecond 0, atSecond 31, atSecond 100, atSecond 3632]
      = ([true, true, true, true], []) ∧
    notified.get
      (replay (mkCheck 1 "x" "critical" "down") notifiedChecks₀
        [atSecond 0, atSecond 31, atSecond 100, atSecond 3632]).2
      (mkCheck 1 "x" "critical" "down") = none := by
  have h : ∀ now, isNotified notifiedChecks₀ (mkCheck 1 "x" "critical" "down") now
      = (true, notifiedChecks₀) := by
    intro now
    simp only [isNotified, isNotifiedRun_unseen _ _ now (show notified.get notifiedChecks₀
      (mkCheck 1 "x" "critical" "down") = none by decide)]
  simp only [replay, h]
  exact ⟨rfl, by decide⟩

/-! ## The aggregator -/

theorem foldl_keep_failing (sc acc : serviceChecks) :
    sc.foldl (fun failing check =>
        if check.val.Status ≠ "passing" then failing ++ [check] else failing) acc
      = acc ++ sc.filter (fun check => decide (check.val.Status ≠ "passing")) := by
  induction sc generalizing acc with
  | nil => simp
  | cons check rest ih =>
    rw [List.foldl_cons, ih]
    by_cases hs : check.val.Status = "passing"
    · simp [hs]
    · simp [hs]

theorem foldl_services_failing (xs : List serviceChecks) (acc : serviceChecks) :
    xs.foldl (fun failing sc =>
        sc.foldl (fun failing check =>
          if check.val.Status ≠ "passing" then failing ++ [check] else failing) failing) acc
      = acc ++ collectFailingSpec xs := by
  induction xs generalizing acc with
  | nil => simp [collectFailingSpec]
  | cons sc rest ih =>
    rw [List.foldl_cons, ih, foldl_keep_failing]
    simp [collectFailingSpec]

theorem failingChecks_eq_spec (xs : List serviceChecks) :
    failingChecks xs = collectFailingSpec xs := by
  unfold failingChecks
  rw [foldl_services_failing]
  simp

theorem servicesChecksStep_fst (c : Consul) (acc : List serviceChecks × List String)
    (entry : String × List String) :
    (c.servicesChecksStep acc entry).1 = acc.1 ++ [(c.healthChecks entry.1).1] := by
  unfold Consul.servicesChecksStep
  dsimp only
  cases (c.healthChecks entry.1).2 <;> rfl

theorem foldl_servicesChecksStep_fst (c : Consul) (entries : Services)
    (acc : List serviceChecks × List String) :
    (entries.foldl c.servicesChecksStep acc).1
      = acc.1 ++ entries.map (fun entry => (c.healthChecks entry.1).1) := by
  induction entries generalizing acc with
  | nil => simp
  | cons entry rest ih =>
    rw [List.foldl_cons, ih, servicesChecksStep_fst]
    simp

theorem servicesChecks_fst (c : Consul) (arg : Services) :
    (c.servicesChecks arg).1 = c.services.1.map (fun entry => (c.healthChecks entry.1).1) := by
  unfold Consul.servicesChecks
  rw [foldl_servicesChecksStep_fst]
  simp

theorem services_fst (c : Consul) : c.services.1 = c.catalogServices.1 := by
  unfold Consul.services
  dsimp only
  cases c.catalogServices.2 <;> rfl

theorem collect_fetched (c : Consul) (entries : Services)
    (herr : ∀ id, (c.healthChecks id).2 ≠ none → (c.healthChecks id).1 = []) :
    collectFailingSpec (entries.map (fun entry => (c.healthChecks entry.1).1))
      = ((entries.map Prod.fst).filter (fun id => (c.healthChecks id).2.isNone)).flatMap
          (fun id => (c.healthChecks id).1.filter
            (fun check => decide (check.val.Status ≠ "passing"))) := by
  induction entries with
  | nil => simp [collectFailingSpec]
  | cons entry rest ih =>
    have hcons : collectFailingSpec
        ((entry :: rest).map (fun entry => (c.healthChecks entry.1).1))
        = (c.healthChecks entry.1).1.filter
            (fun check => decide (check.val.Status ≠ "passing"))
          ++ collectFailingSpec (rest.map (fun entry => (c.healthChecks entry.1).1)) := by
      simp [collectFailingSpec]
    rw [hcons, ih]
    cases hopt : (c.healthChecks entry.1).2 with
    | none => simp [hopt]
    | some e =>
      have hempty := herr entry.1 (by rw [hopt]; simp)
      simp [hopt, hempty]

/-- C7: for every list of per-service check lists, `failingChecks` returns the concatenation of
the lists (outer order, then per-service order) filtered to the checks whose `Status` is not
exactly "passing": every returned check is non-passing, every non-passing input check appears
with the same multiplicity, no passing check appears; and
`[[check1 passing, check2 critical], [check3 warning]]` yields `[check2, check3]`. -/
theorem C7_failingChecks_filter (xs : List serviceChecks) :
    failingChecks xs
      = xs.flatten.filter (fun check => decide (check.val.Status ≠ "passing")) ∧
    (∀ check ∈ failingChecks xs, check.val.Status ≠ "passing") ∧
    (∀ check : HealthCheckPtr, check.val.Status ≠ "passing" →
      (failingChecks xs).count check = xs.flatten.count check) ∧
    (∀ check : HealthCheckPtr, check.val.Status = "passing" → check ∉ failingChecks xs) ∧
    failingChecks [[mkCheck 1 "api" "passing" "ok", mkCheck 2 "api" "critical" "timeout"],
        [mkCheck 3 "db" "warning" "slow"]]
      = [mkCheck 2 "api" "critical" "timeout", mkCheck 3 "db" "warning" "slow"] := by
  refine ⟨failingChecks_eq_spec xs, ?_, ?_, ?_, ?_⟩
  · intro check hmem
    rw [failingChecks_eq_spec, collectFailingSpec, List.mem_filter] at hmem
    simpa using hmem.2
  · intro check hs
    rw [failingChecks_eq_spec, collectFailingSpec]
    exact List.count_filter (by simpa using hs)
  · intro check hs hmem
    rw [failingChecks_eq_spec, collectFailingSpec, List.mem_filter] at hmem
    simp [hs] at hmem
  · rw [failingChecks_eq_spec]
    simp [collectFailingSpec, mkCheck]

/-- C8: with a registry whose failed fetches yield no checks, for every catalog,
`failingChecks(servicesChecks(...))` is exactly the non-passing checks of the services whose
fetch succeeded, service by service in catalog order: an error for one service neither stops
the collection nor drops a check of another service. -/
theorem C8_registry_error_isolated (c : Consul) (arg : Services)
    (herr : ∀ id, (c.healthChecks id).2 ≠ none → (c.healthChecks id).1 = []) :
    failingChecks (c.servicesChecks arg).1
      = ((c.catalogServices.1.map Prod.fst).filter
            (fun id => (c.healthChecks id).2.isNone)).flatMap
          (fun id => (c.healthChecks id).1.filter
            (fun check => decide (check.val.Status ≠ "passing"))) ∧
    (∀ entry ∈ c.catalogServices.1, ∀ check ∈ (c.healthChecks entry.1).1,
      check.val.Status ≠ "passing" → check ∈ failingChecks (c.servicesChecks arg).1) := by
  have heq : failingChecks (c.servicesChecks arg).1
      = collectFailingSpec (c.catalogServices.1.map (fun entry => (c.healthChecks entry.1).1)) := by
    rw [failingChecks_eq_spec, servicesChecks_fst, services_fst]
  refine ⟨?_, ?_⟩
  · rw [heq, collect_fetched c _ herr]
  · intro entry hentry check hcheck hs
    rw [heq, collectFailingSpec, List.mem_filter]
    refine ⟨?_, by simpa using hs⟩
    rw [List.mem_flatten]
    exact ⟨(c.healthChecks entry.1).1, List.mem_map.2 ⟨entry, hentry, rfl⟩, hcheck⟩

theorem registryDbDown_err (id : String) :
    (registryDbDown.healthChecks id).2 ≠ none → (registryDbDown.healthChecks id).1 = [] := by
  unfold registryDbDown
  by_cases h : id = "api"
  · simp [h]
  · simp [h]

/-- Witness of C8: fetching the checks of `db` errors, `api` has one failing check, and the
result is exactly that check. -/
theorem C8_registry_error_isolated_witness :
    (∀ id, (registryDbDown.healthChecks id).2 ≠ none →
      (registryDbDown.healthChecks id).1 = []) ∧
    (registryDbDown.healthChecks "db").2 = some "connection refused" ∧
    failingChecks (registryDbDown.servicesChecks []).1
      = [mkCheck 2 "api" "critical" "timeout"] :=
  ⟨registryDbDown_err, by simp [registryDbDown],
    (C8_registry_error_isolated registryDbDown [] registryDbDown_err).1.trans
      (by simp [registryDbDown, mkCheck])⟩

/-! ## The notifier and the scheduler -/

theorem triggersOf_append (a b : List Event) :
    triggersOf (a ++ b) = triggersOf a ++ triggersOf b := by
  induction a with
  | nil => rfl
  | cons e rest ih =>
    cases e <;> simp [triggersOf, ih]

theorem triggersOf_logPrint (ls : List String) : triggersOf (ls.map Event.logPrint) = [] := by
  induction ls with
  | nil => rfl
  | cons l rest ih => simp [triggersOf, ih]

theorem notifyStep_store (env : Env) (w : World) (check : HealthCheckPtr) :
    (notifyStep env w check).notifiedChecks
      = (isNotified w.notifiedChecks check (env.now w.nowCalls)).2 := by
  unfold notifyStep
  dsimp only
  split_ifs
  · cases (env.trigger w.triggerCalls (description check)).2 <;> rfl
  · rfl

theorem notifyStep_nowCalls (env : Env) (w : World) (check : HealthCheckPtr) :
    (notifyStep env w check).nowCalls = w.nowCalls + 1 := by
  unfold notifyStep
  dsimp only
  split_ifs
  · cases (env.trigger w.triggerCalls (description check)).2 <;> rfl
  · rfl

theorem notifyStep_triggers (env : Env) (w : World) (check : HealthCheckPtr) :
    triggersOf (notifyStep env w check).trace
      = triggersOf w.trace ++
        (if (isNotified w.notifiedChecks check (env.now w.nowCalls)).1 = false
          then [description check] else []) := by
  unfold notifyStep
  dsimp only
  split_ifs
  · cases (env.trigger w.triggerCalls (description check)).2 <;>
      simp [triggersOf_append, triggersOf]
  · simp

theorem notify_refines (env : Env) (checks : serviceChecks) (w : World) :
    triggersOf (notify env w checks).trace
        = triggersOf w.trace ++ notifySpec env.now w.notifiedChecks w.nowCalls checks ∧
      (notify env w checks).nowCalls = w.nowCalls + checks.length := by
  induction checks generalizing w with
  | nil => simp [notify, notifySpec]
  | cons check rest ih =>
    have h := ih (notifyStep env w check)
    rw [notifyStep_triggers, notifyStep_store, notifyStep_nowCalls] at h
    unfold notify at h ⊢
    rw [List.foldl_cons, h.1, h.2]
    constructor
    · simp only [notifySpec, List.append_assoc]
    · simp only [List.length_cons]
      omega

theorem notify_store (env : Env) (checks : serviceChecks) (w : World) :
    (notify env w checks).notifiedChecks = w.notifiedChecks := by
  induction checks generalizing w with
  | nil => rfl
  | cons check rest ih =>
    unfold notify at ih ⊢
    rw [List.foldl_cons, ih, notifyStep_store, isNotified_snd]

theorem notifySpec_empty_store (now : Nat → Time) (checks : serviceChecks) (k : Nat) :
    notifySpec now notifiedChecks₀ k checks = [] := by
  induction checks generalizing k with
  | nil => rfl
  | cons check rest ih =>
    have hnone : notified.get notifiedChecks₀ check = none := rfl
    simp [notifySpec, isNotified, isNotifiedRun_unseen _ check (now k) hnone, ih]

theorem mainTick_inv (env : Env) (w : World) (c : Consul)
    (hs : w.notifiedChecks = notifiedChecks₀) (ht : triggersOf w.trace = []) :
    (mainTick env w c).notifiedChecks = notifiedChecks₀ ∧
      triggersOf (mainTick env w c).trace = [] := by
  unfold mainTick
  dsimp only
  constructor
  · rw [notify_store]
    exact hs
  · rw [(notify_refines env _ _).1]
    simp [triggersOf_append, triggersOf_logPrint, ht, hs, notifySpec_empty_store]

theorem mainLoop_inv (env : Env) (ticks : List Consul) (w : World)
    (hs : w.notifiedChecks = notifiedChecks₀) (ht : triggersOf w.trace = []) :
    (ticks.foldl (mainTick env) w).notifiedChecks = notifiedChecks₀ ∧
      triggersOf (ticks.foldl (mainTick env) w).trace = [] := by
  induction ticks generalizing w with
  | nil => exact ⟨hs, ht⟩
  | cons c rest ih =>
    rw [List.foldl_cons]
    exact ih _ (mainTick_inv env w c hs ht).1 (mainTick_inv env w c hs ht).2

/-- C9: for every list of failing checks, every store and every pager, `notify` calls
`isNotified` once per check in list order and calls `pager.Trigger` exactly for the checks for
which `isNotified` returned `false`, in the same order, each with the description
`ServiceName ++ " => " ++ Output`; whatever the pager answers (an error included), the remaining
checks are evaluated and paged. -/
theorem C9_notify_pages_unsuppressed (env : Env) (w : World) (checks : serviceChecks) :
    triggersOf (notify env w checks).trace
        = triggersOf w.trace ++ notifySpec env.now w.notifiedChecks w.nowCalls checks ∧
    (notify env w checks).nowCalls = w.nowCalls + checks.length ∧
    (∀ check : HealthCheckPtr,
      description check = check.val.ServiceName ++ " => " ++ check.val.Output) :=
  ⟨(notify_refines env checks w).1, (notify_refines env checks w).2, fun _ => rfl⟩

/-- C10: `isNotified` never writes to the store, so after every sequence of ticks of the main
loop the store is the initial empty map; hence `isNotified` returns `true` for every check at
every time, and `notify` has never called `pager.Trigger`. -/
theorem C10_store_stays_empty (env : Env) (ticks : List Consul) :
    (∀ (st : notified) (check : HealthCheckPtr) (now : Time),
      (isNotified st check now).2 = st) ∧
    (mainLoop env ticks).notifiedChecks = notifiedChecks₀ ∧
    (∀ (check : HealthCheckPtr) (now : Time),
      (isNotified (mainLoop env ticks).notifiedChecks check now).1 = true) ∧
    triggersOf (mainLoop env ticks).trace = [] := by
  have hinv := mainLoop_inv env ticks World.init rfl rfl
  refine ⟨isNotified_snd, hinv.1, ?_, hinv.2⟩
  intro check now
  have hstore : (mainLoop env ticks).notifiedChecks = notifiedChecks₀ := hinv.1
  rw [hstore]
  simp [isNotified, isNotifiedRun_unseen notifiedChecks₀ check now rfl]

end Notify
